import Mathlib

/-!
Shallow embedding of the helmet-detection core of `comp-vis`
(src/backend/helmet_detector.py and src/backend/app.py).

Coordinates and confidences are modelled as rationals (the Python code
works on floats produced by `tensor.tolist()`); Python's `int()`
conversion (truncation toward zero) is modelled explicitly by `pyInt`.
The external object detector and helmet classifier are collaborators:
their outputs enter the embedding as plain data (lists of predictions,
and a per-person classifier outcome where `none` stands for a raised
exception).
-/

namespace CompVis

/-- Python `int()` applied to a rational: truncation toward zero. -/
def pyInt (q : ℚ) : ℤ := if 0 ≤ q then ⌊q⌋ else ⌈q⌉

/-- An axis-aligned bounding box `[x1, y1, x2, y2]` in pixel coordinates,
as the four-element lists passed around by `helmet_detector.py`. -/
structure Box where
  x1 : ℚ
  y1 : ℚ
  x2 : ℚ
  y2 : ℚ
deriving Repr, DecidableEq

/-- One raw detector prediction: a row `x1, y1, x2, y2, conf, cls` of
`results.xyxy[0]` after `tolist()`.  The class id is kept as an integer,
matching the `int(cls)` conversions in the source. -/
structure Pred where
  x1 : ℚ
  y1 : ℚ
  x2 : ℚ
  y2 : ℚ
  conf : ℚ
  cls : ℤ
deriving Repr, DecidableEq

/-- The box `[x1, y1, x2, y2]` of a prediction. -/
def personBox (p : Pred) : Box := ⟨p.x1, p.y1, p.x2, p.y2⟩

/-- Body of the loop of `check_motorcycle_overlap` for one motorcycle box:
intersection rectangle, the no-intersection `continue` test, and the
comparison `intersection_area > threshold * person_area`.  The source
hardcodes the threshold `0.2` in this comparison; it is exposed here as a
parameter (as in spec section 4.1), and every call from `detect` passes
`2/10`. -/
def overlapsBox (person moto : Box) (threshold : ℚ) : Bool :=
  let x_left := max person.x1 moto.x1
  let y_top := max person.y1 moto.y1
  let x_right := min person.x2 moto.x2
  let y_bottom := min person.y2 moto.y2
  if x_right < x_left ∨ y_bottom < y_top then
    false
  else
    let intersection_area := (x_right - x_left) * (y_bottom - y_top)
    let person_area := (person.x2 - person.x1) * (person.y2 - person.y1)
    decide (intersection_area > threshold * person_area)

/-- `HelmetDetectionModel.check_motorcycle_overlap`: false on an empty
motorcycle list, otherwise true iff some motorcycle box passes
`overlapsBox` (the source loop returns `True` at the first match and
`False` after the loop). -/
def check_motorcycle_overlap (person_box : Box) (motorcycle_boxes : List Box)
    (threshold : ℚ) : Bool :=
  if motorcycle_boxes.isEmpty then
    false
  else
    motorcycle_boxes.any (fun m => overlapsBox person_box m threshold)

/-- The person filter of `detect`: `int(cls) == 0 and conf > 0.5`. -/
def qualifies_person (p : Pred) : Bool :=
  p.cls == 0 && decide (p.conf > 1/2)

/-- The motorcycle filter of `detect`: `int(cls) == 3 and conf > 0.5`. -/
def qualifies_motorcycle (p : Pred) : Bool :=
  p.cls == 3 && decide (p.conf > 1/2)

/-- The `motorcycle_boxes` list built by `detect` from the motorcycle
detector output. -/
def motorcycleBoxes (motos : List Pred) : List Box :=
  (motos.filter qualifies_motorcycle).map personBox

/-- `HelmetDetectionModel.detect_helmet`, with the image crop abstracted:
`head_size` is `head_image.size` and `classifier_result` is the outcome of
the `try` block (`none` when the classifier raises).  A zero-size crop
skips the classifier and yields `false`; an exception is caught and yields
`false`. -/
def detect_helmet (head_size : ℕ) (classifier_result : Option Bool) : Bool :=
  if head_size = 0 then
    false
  else
    match classifier_result with
    | none => false
    | some b => b

/-- `head_y2 = int(y1 + (y2-y1) * 0.3)` of `detect`. -/
def head_y2 (p : Pred) : ℤ := pyInt (p.y1 + (p.y2 - p.y1) * (3/10))

/-- The head crop rectangle `image[int(y1):head_y2, int(x1):int(x2)]` of
`detect`, as `(x_start, y_start, x_stop, y_stop)`. -/
def head_region (p : Pred) : ℤ × ℤ × ℤ × ℤ :=
  (pyInt p.x1, pyInt p.y1, pyInt p.x2, head_y2 p)

/-- The person crop rectangle `image[int(y1):int(y2), int(x1):int(x2)]` of
`detect`, as `(x_start, y_start, x_stop, y_stop)`. -/
def person_crop (p : Pred) : ℤ × ℤ × ℤ × ℤ :=
  (pyInt p.x1, pyInt p.y1, pyInt p.x2, pyInt p.y2)

/-- One entry of the `detections` list built by `detect`:
`bbox = [int(x1), int(y1), int(x2-x1), int(y2-y1)]`, confidence, class,
helmet flag and motorcycle-association flag. -/
structure Detection where
  bbox_x : ℤ
  bbox_y : ℤ
  bbox_w : ℤ
  bbox_h : ℤ
  confidence : ℚ
  cls : ℤ
  has_helmet : Bool
  on_motorcycle : Bool
deriving Repr, DecidableEq

/-- The dictionary appended by `detect` for one qualifying person `p`,
given the frame's motorcycle boxes and the abstracted head-crop size and
classifier outcome for `p`. -/
def mkDetection (motorcycle_boxes : List Box) (head_size : Pred → ℕ)
    (classifier_result : Pred → Option Bool) (p : Pred) : Detection :=
  { bbox_x := pyInt p.x1
    bbox_y := pyInt p.y1
    bbox_w := pyInt (p.x2 - p.x1)
    bbox_h := pyInt (p.y2 - p.y1)
    confidence := p.conf
    cls := p.cls
    has_helmet := detect_helmet (head_size p) (classifier_result p)
    on_motorcycle := check_motorcycle_overlap (personBox p) motorcycle_boxes (2/10) }

/-- The reporting filter of `detect`:
`if len(motorcycle_boxes) == 0 or is_on_motorcycle`. -/
def keepPred (motorcycle_boxes : List Box) (p : Pred) : Bool :=
  motorcycle_boxes.isEmpty ||
    check_motorcycle_overlap (personBox p) motorcycle_boxes (2/10)

/-- `HelmetDetectionModel.detect`: the person and motorcycle detector
outputs enter as `persons` and `motos`; for each qualifying person the
association, head crop and helmet classification are computed, and the
detection is appended when the reporting filter passes. -/
def detect (persons motos : List Pred) (head_size : Pred → ℕ)
    (classifier_result : Pred → Option Bool) : List Detection :=
  let motorcycle_boxes := motorcycleBoxes motos
  persons.filterMap (fun p =>
    if qualifies_person p then
      if keepPred motorcycle_boxes p then
        some (mkDetection motorcycle_boxes head_size classifier_result p)
      else
        none
    else
      none)

/-- `frame_interval = max(1, int(fps))` of `process_video`. -/
def frame_interval (fps : ℚ) : ℕ := max 1 (pyInt fps).toNat

/-- The `while True` loop of `process_video`: reads the remaining frames
one by one, runs the per-frame pipeline on frames whose index is a
multiple of the interval, tags each detection with its frame number, and
returns the accumulated detections together with the final value of
`frame_number`.  `frame_dets i` abstracts `model.detect` on frame `i`. -/
def videoLoop (frame_dets : ℕ → List Detection) (interval : ℕ) :
    ℕ → ℕ → List (ℕ × Detection) × ℕ
  | frame_number, 0 => ([], frame_number)
  | frame_number, remaining + 1 =>
    let rest := videoLoop frame_dets interval (frame_number + 1) remaining
    ((if frame_number % interval = 0 then
        (frame_dets frame_number).map (fun d => (frame_number, d))
      else []) ++ rest.1,
     rest.2)

/-- The statistics block of `process_video`. -/
structure Statistics where
  total_people : ℕ
  people_with_helmets : ℕ
  people_without_helmets : ℕ
  helmet_percentage : ℚ
deriving Repr, DecidableEq

/-- The statistics computed by `process_video` over `all_detections`:
counts and the guarded percentage
`(people_with_helmets / total_people * 100) if total_people > 0 else 0`. -/
def compute_statistics (all_detections : List (ℕ × Detection)) : Statistics :=
  let total_people := all_detections.length
  let people_with_helmets :=
    all_detections.countP (fun d => d.2.has_helmet)
  { total_people := total_people
    people_with_helmets := people_with_helmets
    people_without_helmets := total_people - people_with_helmets
    helmet_percentage :=
      if 0 < total_people then
        (people_with_helmets : ℚ) / (total_people : ℚ) * 100
      else 0 }

/-- The response of `process_video` (the parts the core computes):
accumulated detections, `processed_frames = frame_number // frame_interval`,
and the statistics. -/
structure VideoResponse where
  all_detections : List (ℕ × Detection)
  processed_frames : ℕ
  statistics : Statistics
deriving Repr, DecidableEq

/-- `process_video` on a video with `total_frames` readable frames, frame
rate `fps`, and per-frame pipeline output `frame_dets`. -/
def process_video (frame_dets : ℕ → List Detection) (total_frames : ℕ)
    (fps : ℚ) : VideoResponse :=
  let interval := frame_interval fps
  let r := videoLoop frame_dets interval 0 total_frames
  { all_detections := r.1
    processed_frames := r.2 / interval
    statistics := compute_statistics r.1 }

/-- A concrete detection entry used in the aggregation examples. -/
def sampleDetection (helmet : Bool) : Detection :=
  { bbox_x := 0
    bbox_y := 0
    bbox_w := 1
    bbox_h := 1
    confidence := 9/10
    cls := 0
    has_helmet := helmet
    on_motorcycle := false }

/-- Five accumulated detections, three of them with helmets. -/
def exampleDetections : List (ℕ × Detection) :=
  [(0, sampleDetection true), (0, sampleDetection true),
   (1, sampleDetection true), (1, sampleDetection false),
   (2, sampleDetection false)]

/-- Scenario person overlapping the scenario motorcycle. -/
def scenarioOnPerson : Pred := ⟨0, 0, 10, 10, 9/10, 0⟩

/-- Scenario person far away from the scenario motorcycle. -/
def scenarioOffPerson : Pred := ⟨100, 100, 110, 110, 9/10, 0⟩

/-- Scenario motorcycle prediction. -/
def scenarioMotorcycle : Pred := ⟨0, 0, 10, 10, 9/10, 3⟩

/-! ## Theorems -/

/-- The final `frame_number` of the video loop counts every frame read:
starting at `frame_number = k` with `n` frames remaining, the loop ends
with `frame_number = k + n`. -/
theorem videoLoop_snd (frame_dets : ℕ → List Detection) (I : ℕ) :
    ∀ n k, (videoLoop frame_dets I k n).2 = k + n
  | 0, k => by simp [videoLoop]
  | n + 1, k => by
    simp only [videoLoop]
    rw [videoLoop_snd frame_dets I n (k + 1)]
    omega

/-- The detections accumulated by the video loop are exactly those of the
frames whose index is a multiple of the interval, each tagged with its
frame index, in frame order. -/
theorem videoLoop_fst (frame_dets : ℕ → List Detection) (I : ℕ) :
    ∀ n k, (videoLoop frame_dets I k n).1 =
      ((List.range' k n).filter (fun i => i % I == 0)).flatMap
        (fun i => (frame_dets i).map (fun d => (i, d)))
  | 0, k => by simp [videoLoop]
  | n + 1, k => by
    rw [List.range'_succ]
    simp only [videoLoop, List.filter_cons]
    by_cases h : k % I = 0
    · simp [h, videoLoop_fst frame_dets I n (k + 1)]
    · simp [h, videoLoop_fst frame_dets I n (k + 1)]

/-- Claim C9: `check_motorcycle_overlap` returns false whenever the list of
motorcycle boxes is empty, for every person box (and every threshold). -/
theorem C9_empty_motorcycles (person_box : Box) (threshold : ℚ) :
    check_motorcycle_overlap person_box [] threshold = false := rfl

/-- Claim C8: for every pair of boxes whose intersection rectangle is
geometrically empty (`x_right < x_left` or `y_bottom < y_top`), the overlap
test returns false, regardless of the threshold. -/
theorem C8_no_intersection (person moto : Box) (threshold : ℚ)
    (h : min person.x2 moto.x2 < max person.x1 moto.x1 ∨
         min person.y2 moto.y2 < max person.y1 moto.y1) :
    overlapsBox person moto threshold = false := by
  simp only [overlapsBox]
  rw [if_pos h]

/-- Witness for C8 at person box (0,0,1,1), motorcycle box (2,2,3,3). -/
theorem C8_no_intersection_witness :
    (min ((1 : ℚ)) ((3 : ℚ)) < max 0 2 ∨ min ((1 : ℚ)) ((3 : ℚ)) < max 0 2) ∧
      overlapsBox ⟨0, 0, 1, 1⟩ ⟨2, 2, 3, 3⟩ 0 = false :=
  ⟨Or.inl (by norm_num),
   C8_no_intersection ⟨0, 0, 1, 1⟩ ⟨2, 2, 3, 3⟩ 0 (Or.inl (by norm_num))⟩

/-- Counterexample to claim C1 as stated: the person box (0,0,1,1) has
positive area and is fully contained in the motorcycle box (0,0,2,2), and
the threshold 1 satisfies "threshold ≤ 1.0", yet the overlap test reports
no overlap, because the source compares with strict `>` and under
containment the intersection area equals the person area exactly. -/
theorem C1_counterexample :
    ((0 : ℚ) < 1 ∧ (0 : ℚ) < 1) ∧
    ((0 : ℚ) ≤ 0 ∧ (0 : ℚ) ≤ 0 ∧ (1 : ℚ) ≤ 2 ∧ (1 : ℚ) ≤ 2) ∧
    (1 : ℚ) ≤ 1 ∧
    check_motorcycle_overlap ⟨0, 0, 1, 1⟩ [⟨0, 0, 2, 2⟩] 1 = false := by
  refine ⟨⟨by norm_num, by norm_num⟩, ⟨le_refl _, le_refl _, by norm_num, by norm_num⟩,
    le_refl _, ?_⟩
  simp only [check_motorcycle_overlap, overlapsBox, List.isEmpty, List.any]
  norm_num

/-- Claim C1 (amended): for every person box with positive area
(`x1 < x2`, `y1 < y2`) fully contained in a motorcycle box of the list,
`check_motorcycle_overlap` reports an overlap for every threshold
strictly below 1; in particular this holds at the implemented threshold
2/10. -/
theorem C1_containment_overlap (p m : Box) (ms : List Box) (t : ℚ)
    (hm : m ∈ ms)
    (hx : p.x1 < p.x2) (hy : p.y1 < p.y2)
    (hc1 : m.x1 ≤ p.x1) (hc2 : m.y1 ≤ p.y1)
    (hc3 : p.x2 ≤ m.x2) (hc4 : p.y2 ≤ m.y2)
    (ht : t < 1) :
    check_motorcycle_overlap p ms t = true := by
  have hne : ms.isEmpty = false := by
    cases ms with
    | nil => cases hm
    | cons a l => rfl
  have hA : 0 < (p.x2 - p.x1) * (p.y2 - p.y1) :=
    mul_pos (sub_pos.mpr hx) (sub_pos.mpr hy)
  have hover : overlapsBox p m t = true := by
    simp only [overlapsBox, max_eq_left hc1, max_eq_left hc2,
      min_eq_left hc3, min_eq_left hc4]
    rw [if_neg (by push_neg; exact ⟨le_of_lt hx, le_of_lt hy⟩)]
    refine decide_eq_true ?_
    have h1 : t * ((p.x2 - p.x1) * (p.y2 - p.y1)) <
        1 * ((p.x2 - p.x1) * (p.y2 - p.y1)) :=
      mul_lt_mul_of_pos_right ht hA
    simpa using h1
  simp only [check_motorcycle_overlap, hne, Bool.false_eq_true, if_false,
    List.any_eq_true]
  exact ⟨m, hm, hover⟩

/-- Witness for C1 (amended) at the implemented threshold 2/10. -/
theorem C1_containment_overlap_witness :
    check_motorcycle_overlap ⟨0, 0, 1, 1⟩ [⟨0, 0, 2, 2⟩] (2/10) = true :=
  C1_containment_overlap ⟨0, 0, 1, 1⟩ ⟨0, 0, 2, 2⟩ [⟨0, 0, 2, 2⟩] (2/10)
    (List.mem_singleton.mpr rfl) (by norm_num) (by norm_num) (by norm_num)
    (by norm_num) (by norm_num) (by norm_num) (by norm_num)

/-- Counterexample to claim C2 as stated: for fps = 29.97 the source
computes `max(1, int(fps)) = 29` (truncation), while rounding to the
nearest integer would give `max(1, round(fps)) = 30`. -/
theorem C2_counterexample :
    frame_interval (2997/100) = 29 ∧
      max (1 : ℤ) (round ((2997 : ℚ)/100)) = 30 := by
  constructor
  · norm_num [frame_interval, pyInt]
    rfl
  · norm_num [round_eq]

/-- Claim C2 (amended): the sampling interval is `max(1, trunc(fps))`
where `trunc` truncates toward zero (Python `int()`), and exactly the
frames whose index is a multiple of this interval contribute their
per-frame pipeline output (all other frames are skipped). -/
theorem C2_sampling (frame_dets : ℕ → List Detection) (total_frames : ℕ)
    (fps : ℚ) :
    frame_interval fps = max 1 (pyInt fps).toNat ∧
    (process_video frame_dets total_frames fps).all_detections =
      ((List.range total_frames).filter
          (fun i => i % frame_interval fps == 0)).flatMap
        (fun i => (frame_dets i).map (fun d => (i, d))) := by
  refine ⟨rfl, ?_⟩
  simp only [process_video]
  rw [List.range_eq_range']
  exact videoLoop_fst frame_dets (frame_interval fps) total_frames 0

/-- Claim C4: the reported `processed_frames` equals
`floor(total_frames_seen / interval)`; for fps = 30 and 95 frames the
interval is 30, the sampled indices are exactly 0, 30, 60, 90 (four
frames), yet the reported count is 95 / 30 = 3. -/
theorem C4_processed_frames (frame_dets : ℕ → List Detection)
    (total_frames : ℕ) (fps : ℚ) :
    (process_video frame_dets total_frames fps).processed_frames =
      total_frames / frame_interval fps ∧
    frame_interval 30 = 30 ∧
    (List.range 95).filter (fun i => i % frame_interval 30 == 0) =
      [0, 30, 60, 90] ∧
    (process_video (fun _ => []) 95 30).processed_frames = 3 := by
  have h30 : frame_interval 30 = 30 := by
    norm_num [frame_interval, pyInt]
    rfl
  refine ⟨?_, h30, ?_, ?_⟩
  · simp only [process_video]
    rw [videoLoop_snd]
    simp
  · rw [h30]
    decide
  · simp only [process_video]
    rw [videoLoop_snd, h30]

/-- Claim C5: the video statistics count the accumulated detections:
`total_people` is the number of detections, `people_with_helmets` counts
the `has_helmet` flags, `people_without_helmets` is the difference, and
`helmet_percentage` is `with / total * 100` guarded by the explicit
`total > 0` check (0 otherwise); 5 detections with 3 helmets give
(5, 3, 2, 60), and zero detections give percentage 0. -/
theorem C5_statistics (frame_dets : ℕ → List Detection) (total_frames : ℕ)
    (fps : ℚ) (ds : List (ℕ × Detection)) :
    (process_video frame_dets total_frames fps).statistics =
      compute_statistics
        (process_video frame_dets total_frames fps).all_detections ∧
    (compute_statistics ds).total_people = ds.length ∧
    (compute_statistics ds).people_with_helmets =
      ds.countP (fun d => d.2.has_helmet) ∧
    (compute_statistics ds).people_without_helmets =
      (compute_statistics ds).total_people -
        (compute_statistics ds).people_with_helmets ∧
    (compute_statistics ds).helmet_percentage =
      (if 0 < ds.length then
        (ds.countP (fun d => d.2.has_helmet) : ℚ) / (ds.length : ℚ) * 100
       else 0) ∧
    compute_statistics exampleDetections = ⟨5, 3, 2, 60⟩ ∧
    compute_statistics [] = ⟨0, 0, 0, 0⟩ := by
  refine ⟨rfl, rfl, rfl, rfl, rfl, ?_, ?_⟩
  · simp only [compute_statistics, exampleDetections, sampleDetection,
      List.countP_cons, List.countP_nil, List.length_cons, List.length_nil]
    norm_num
  · simp only [compute_statistics, List.countP_nil, List.length_nil]
    norm_num

/-- Claim C10: invariants of the statistics: helmet and no-helmet counts
sum to the total, the helmet count never exceeds the total, and the
percentage is 0 exactly when there are no detections or none of them has
a helmet. -/
theorem C10_invariants (ds : List (ℕ × Detection)) :
    (compute_statistics ds).people_with_helmets +
        (compute_statistics ds).people_without_helmets =
      (compute_statistics ds).total_people ∧
    (compute_statistics ds).people_with_helmets ≤
      (compute_statistics ds).total_people ∧
    ((compute_statistics ds).helmet_percentage = 0 ↔
      ((compute_statistics ds).total_people = 0 ∨
        ∀ d ∈ ds, d.2.has_helmet = false)) := by
  have hle : ds.countP (fun d => d.2.has_helmet) ≤ ds.length :=
    List.countP_le_length _
  simp only [compute_statistics]
  refine ⟨by omega, hle, ?_⟩
  by_cases h : 0 < ds.length
  · rw [if_pos h]
    have hn : (ds.length : ℚ) ≠ 0 := by
      exact_mod_cast Nat.pos_iff_ne_zero.mp h
    rw [div_mul_eq_mul_div, div_eq_zero_iff]
    simp only [hn, or_false, mul_eq_zero, Nat.cast_eq_zero,
      OfNat.ofNat_ne_zero, List.countP_eq_zero, Bool.not_eq_true]
    exact (or_iff_right (by omega)).symm
  · rw [if_neg h]
    have h0 : ds.length = 0 := by omega
    simp [h0]

/-- Witness for C10 at the five-element example list. -/
theorem C10_invariants_witness :
    (compute_statistics exampleDetections).people_with_helmets +
        (compute_statistics exampleDetections).people_without_helmets =
      (compute_statistics exampleDetections).total_people :=
  (C10_invariants exampleDetections).1

/-- `detect` builds exactly one detection per person passing both the
confidence/class filter and the reporting filter, in input order. -/
theorem detect_eq_filter_map (persons motos : List Pred) (head_size : Pred → ℕ)
    (classifier_result : Pred → Option Bool) :
    detect persons motos head_size classifier_result =
      (persons.filter (fun p =>
          qualifies_person p && keepPred (motorcycleBoxes motos) p)).map
        (mkDetection (motorcycleBoxes motos) head_size classifier_result) := by
  simp only [detect]
  induction persons with
  | nil => rfl
  | cons p ps ih =>
    simp only [List.filterMap_cons, List.filter_cons]
    by_cases h1 : qualifies_person p
    · by_cases h2 : keepPred (motorcycleBoxes motos) p
      · simp [h1, h2, ih]
      · simp [h1, h2, ih]
    · simp [h1, ih]

/-- Claim C3: the per-frame output consists of exactly the qualifying
persons (class 0, confidence above 1/2) that pass the reporting filter:
with zero detected motorcycle boxes the association is irrelevant, with
at least one only associated persons remain; in the concrete scenario
(two qualifying persons, one overlapping the single motorcycle, one not)
exactly one detection is produced. -/
theorem C3_reporting_filter (persons motos : List Pred) (head_size : Pred → ℕ)
    (classifier_result : Pred → Option Bool) :
    detect persons motos head_size classifier_result =
      (persons.filter (fun p =>
          qualifies_person p &&
            ((motorcycleBoxes motos).isEmpty ||
              check_motorcycle_overlap (personBox p)
                (motorcycleBoxes motos) (2/10)))).map
        (mkDetection (motorcycleBoxes motos) head_size classifier_result) ∧
    (detect [scenarioOnPerson, scenarioOffPerson] [scenarioMotorcycle]
        (fun _ => 1) (fun _ => some false)).length = 1 := by
  constructor
  · exact detect_eq_filter_map persons motos head_size classifier_result
  · rw [detect_eq_filter_map]
    have hm : motorcycleBoxes [scenarioMotorcycle] = [⟨0, 0, 10, 10⟩] := by
      simp only [motorcycleBoxes, qualifies_motorcycle, scenarioMotorcycle,
        personBox, List.filter, List.map]
      norm_num
      rfl
    have h1 : (qualifies_person scenarioOnPerson &&
        keepPred (motorcycleBoxes [scenarioMotorcycle]) scenarioOnPerson)
          = true := by
      rw [hm]
      simp only [qualifies_person, keepPred, scenarioOnPerson,
        check_motorcycle_overlap, overlapsBox, personBox, List.isEmpty,
        List.any, max_self, min_self]
      norm_num
    have h2 : (qualifies_person scenarioOffPerson &&
        keepPred (motorcycleBoxes [scenarioMotorcycle]) scenarioOffPerson)
          = false := by
      rw [hm]
      simp only [qualifies_person, keepPred, scenarioOffPerson,
        check_motorcycle_overlap, overlapsBox, personBox, List.isEmpty,
        List.any]
      norm_num [max_def, min_def]
    simp only [List.filter_cons, h1, h2, List.filter_nil, if_true, if_false,
      List.map, List.length]

/-- Claim C6: helmet classification never escapes `detect`: a zero-size
head crop skips the classifier and yields false, a classifier exception
(`none`) is caught and yields false, each reported person's `has_helmet`
is computed from that person's own crop and classifier outcome alone,
and the set of reported persons does not depend on classifier outcomes,
so a failure affects only the one person. -/
theorem C6_classifier_failure (persons motos : List Pred)
    (head_size : Pred → ℕ) (cr cr2 : Pred → Option Bool) (n : ℕ)
    (r : Option Bool) :
    detect_helmet 0 r = false ∧
    detect_helmet n none = false ∧
    detect persons motos head_size cr =
      (persons.filter (fun p =>
          qualifies_person p && keepPred (motorcycleBoxes motos) p)).map
        (mkDetection (motorcycleBoxes motos) head_size cr) ∧
    (detect persons motos head_size cr).length =
      (detect persons motos head_size cr2).length := by
  refine ⟨rfl, ?_, detect_eq_filter_map persons motos head_size cr, ?_⟩
  · simp only [detect_helmet]
    split
    · rfl
    · rfl
  · rw [detect_eq_filter_map, detect_eq_filter_map]
    simp only [List.length_map]

/-- Counterexample to claim C7 as stated: for the person box
(0, 0, 100, 5) the claim's bottom edge `y1 + 0.3*(y2-y1)` equals 3/2,
but the code truncates (`int(...)`) and produces 1. -/
theorem C7_counterexample :
    head_y2 ⟨0, 0, 100, 5, 1, 0⟩ = 1 ∧
      ((0 : ℚ) + (3/10) * (5 - 0)) ≠ ((1 : ℤ) : ℚ) := by
  constructor
  · norm_num [head_y2, pyInt]
  · norm_num

/-- Claim C7 (amended): for every person box with x1 ≤ x2 and y1 ≤ y2
the head crop spans the same horizontal extent as the person crop, and
its bottom edge is `int(y1 + 0.3*(y2-y1))` with truncation toward zero;
for the box (0, 0, 100, 100) the head region is (0, 0, 100, 30). -/
theorem C7_head_region (p : Pred) (hx : p.x1 ≤ p.x2) (hy : p.y1 ≤ p.y2) :
    (head_region p).1 = (person_crop p).1 ∧
    (head_region p).2.2.1 = (person_crop p).2.2.1 ∧
    (head_region p).2.2.2 = pyInt (p.y1 + (3/10) * (p.y2 - p.y1)) ∧
    head_region ⟨0, 0, 100, 100, 1, 0⟩ = (0, 0, 100, 30) := by
  refine ⟨rfl, rfl, ?_, ?_⟩
  · simp only [head_region, head_y2]
    rw [show p.y1 + (p.y2 - p.y1) * (3/10) =
        p.y1 + (3/10) * (p.y2 - p.y1) from by ring]
  · simp only [head_region, head_y2, Prod.mk.injEq]
    norm_num [pyInt]

/-- Witness for C7 (amended) at the person box (0, 0, 100, 100). -/
theorem C7_head_region_witness :
    (head_region ⟨0, 0, 100, 100, 1, 0⟩).2.2.2 =
      pyInt ((0 : ℚ) + (3/10) * (100 - 0)) :=
  (C7_head_region ⟨0, 0, 100, 100, 1, 0⟩ (by norm_num) (by norm_num)).2.2.1

end CompVis
